import Mathlib

/-!
Shallow embedding of the medusa repository fragment: the backend services
`CustomShippingOptionService` (src/packages/medusa/src/services/custom-shipping-option.ts)
and `SalesChannelService` (src/unnamed/part_000), and the admin sales-channel
mutation hooks (src/packages/medusa-react/src/hooks/admin/sales-channels/mutations.ts).

The database is modelled as an explicit list of records threaded through every
operation; promises/exceptions become `Except`.  Collaborators whose code is not
part of the fragment (`buildQuery`, the TypeORM custom repositories, the
transaction wrapper `atomicPhase_` of `TransactionBaseService`, the react-query
`useMutation`/`buildOptions` pair and the query-key factory) are modelled from
the specification's description of them; each such definition carries a doc
comment saying so.
-/

namespace Medusa

/-- Free-form metadata of a record (a flat JSON object, modelled as an
association list of string keys and string values). -/
abbrev Metadata := List (String × String)

/-- Errors a service operation can surface: `notFound` models a
`MedusaError` of type `NOT_FOUND`; `notImplemented` models the plain
`Error("Method not implemented.")` thrown by the sales-channel stubs;
`storage` models a failure coming from the storage layer itself
(constraint violation, connection error). -/
inductive ServiceError where
  | notFound (msg : String)
  | notImplemented (msg : String)
  | storage (msg : String)
deriving DecidableEq, Repr

/-- The `CustomShippingOption` entity: id, cart reference, shipping-option
reference, price override, metadata (src model referenced by the service). -/
structure CustomShippingOption where
  id : String
  cart_id : String
  shipping_option_id : String
  price : Int
  metadata : Metadata
deriving DecidableEq, Repr

/-- Modelled from the spec: `CreateCustomShippingOptionInput`
(src/packages/medusa/src/types/shipping-options, not under src/) carries
`cart_id`, `shipping_option_id`, `price` and an optional `metadata` field. -/
structure CreateCustomShippingOptionInput where
  cart_id : String
  shipping_option_id : String
  price : Int
  metadata : Option Metadata
deriving DecidableEq, Repr

/-- `FindConfig`: pagination and relation-inclusion options of a query
(`skip`, `take`, `relations`); a `none` field is an absent (undefined) option. -/
structure FindConfig where
  skip : Option Nat
  take : Option Nat
  relations : List String
deriving DecidableEq, Repr

/-- A `Selector` over `CustomShippingOption`: filter criteria, one optional
criterion per filterable column; a record matches when every present
criterion equals the record's field. -/
structure Selector where
  id : Option String
  cart_id : Option String
  shipping_option_id : Option String
  price : Option Int
deriving DecidableEq, Repr

/-- The selector with no criteria (matches every record). -/
def Selector.empty : Selector :=
  { id := none, cart_id := none, shipping_option_id := none, price := none }

/-- Whether a record satisfies every criterion of the selector. -/
def Selector.matches (sel : Selector) (r : CustomShippingOption) : Bool :=
  (match sel.id with | some v => r.id == v | none => true) &&
  (match sel.cart_id with | some v => r.cart_id == v | none => true) &&
  (match sel.shipping_option_id with | some v => r.shipping_option_id == v | none => true) &&
  (match sel.price with | some v => r.price == v | none => true)

/-- Modelled from the spec: the query descriptor produced by the external
query builder (`buildQuery` in src/packages/medusa/src/utils, not under
src/): a where-clause plus pagination and relations. -/
structure DbQuery where
  whereClause : Selector
  skip : Nat
  take : Option Nat
  relations : List String
deriving DecidableEq, Repr

/-- Modelled from the spec: `buildQuery(selector, config)` turns a filter
selector and a pagination/relations config into a database query
descriptor; an absent `skip` means start at the first row. -/
def buildQuery (sel : Selector) (config : FindConfig) : DbQuery :=
  { whereClause := sel
    skip := config.skip.getD 0
    take := config.take
    relations := config.relations }

/-- The stored table of custom shipping options, in insertion order. -/
abbrev Store := List CustomShippingOption

/-- Take `n` elements when a `take` bound is present, everything otherwise. -/
def takeOpt (n : Option Nat) (l : List CustomShippingOption) : List CustomShippingOption :=
  match n with
  | some k => l.take k
  | none => l

namespace Repo

/-- Modelled from the spec: the repository's `find(query)` — all stored rows
matching the where-clause, paginated by the query's skip/take. -/
def find (s : Store) (q : DbQuery) : List CustomShippingOption :=
  takeOpt q.take ((s.filter fun r => Selector.matches q.whereClause r).drop q.skip)

/-- Modelled from the spec: the repository's `findOne(query)` — the first
stored row matching the where-clause, if any. -/
def findOne (s : Store) (q : DbQuery) : Option CustomShippingOption :=
  (s.filter fun r => Selector.matches q.whereClause r).head?

/-- Modelled from the spec: the repository's `create(fields)` — builds an
unsaved entity from the given fields (the id is assigned by the store on
save, per the id-uniqueness invariant). -/
def create (cart_id shipping_option_id : String) (price : Int) (metadata : Metadata) :
    CustomShippingOption :=
  { id := "", cart_id := cart_id, shipping_option_id := shipping_option_id
    price := price, metadata := metadata }

/-- Modelled from the spec: the repository's `save(entity)` — inserts the
entity, the store assigning it the fresh id `newId`, and returns the
persisted row. -/
def save (newId : String) (s : Store) (r : CustomShippingOption) :
    CustomShippingOption × Store :=
  let saved := { r with id := newId }
  (saved, s ++ [saved])

end Repo

/-- Modelled from the spec: the transaction wrapper `atomicPhase_` of
`TransactionBaseService` — runs a unit of work against the store,
committing the resulting state on success and rolling the state back
(returning the untouched store) on a thrown error, which propagates
unmodified to the caller. -/
def atomicPhase_ {α : Type} (s : Store) (work : Store → Except ServiceError (α × Store)) :
    Except ServiceError α × Store :=
  match work s with
  | Except.ok (a, t) => (Except.ok a, t)
  | Except.error e => (Except.error e, s)

namespace CustomShippingOptionService

/-- The unit of work of `retrieve`: build the query for the selector
`{ id }`, `findOne`, and throw `NOT_FOUND` when no row comes back. -/
def retrieveWork (id : String) (config : FindConfig) (st : Store) :
    Except ServiceError (CustomShippingOption × Store) :=
  let query := buildQuery { Selector.empty with id := some id } config
  match Repo.findOne st query with
  | some customShippingOption => Except.ok (customShippingOption, st)
  | none =>
    Except.error (ServiceError.notFound
      ("Custom shipping option with id: " ++ id ++ " was not found."))

/-- `retrieve(id, config)` of `CustomShippingOptionService`. -/
def retrieve (s : Store) (id : String) (config : FindConfig) :
    Except ServiceError CustomShippingOption × Store :=
  atomicPhase_ s (retrieveWork id config)

/-- The unit of work of `list`: build the query and `find`. -/
def listWork (selector : Selector) (config : FindConfig) (st : Store) :
    Except ServiceError (List CustomShippingOption × Store) :=
  let query := buildQuery selector config
  Except.ok (Repo.find st query, st)

/-- `list(selector, config)` of `CustomShippingOptionService`. -/
def list (s : Store) (selector : Selector) (config : FindConfig) :
    Except ServiceError (List CustomShippingOption) × Store :=
  atomicPhase_ s (listWork selector config)

/-- The default config of `list`, used when the caller omits the argument:
`{ skip: 0, take: 50, relations: [] }`. -/
def listDefaultConfig : FindConfig :=
  { skip := some 0, take := some 50, relations := [] }

/-- `list(selector)` with the config argument omitted. -/
def listDefault (s : Store) (selector : Selector) :
    Except ServiceError (List CustomShippingOption) × Store :=
  list s selector listDefaultConfig

/-- The config parameter of `create`: only carries the optional metadata. -/
structure CreateConfig where
  metadata : Metadata
deriving DecidableEq, Repr

/-- The default config of `create`: `{ metadata: {} }`. -/
def createDefaultConfig : CreateConfig := { metadata := [] }

/-- The unit of work of `create`: destructure `metadata` from the config and
`cart_id`, `shipping_option_id`, `price` from the data, build the entity
and save it.  `newId` is the fresh id the store assigns on save. -/
def createWork (newId : String) (data : CreateCustomShippingOptionInput)
    (config : CreateConfig) (st : Store) :
    Except ServiceError (CustomShippingOption × Store) :=
  let metadata := config.metadata
  let cart_id := data.cart_id
  let shipping_option_id := data.shipping_option_id
  let price := data.price
  let customShippingOption := Repo.create cart_id shipping_option_id price metadata
  let result := Repo.save newId st customShippingOption
  Except.ok (result.1, result.2)

/-- `create(data, config)` of `CustomShippingOptionService`. -/
def create (newId : String) (s : Store) (data : CreateCustomShippingOptionInput)
    (config : CreateConfig) : Except ServiceError CustomShippingOption × Store :=
  atomicPhase_ s (createWork newId data config)

end CustomShippingOptionService

/-- The `SalesChannel` entity (src/unnamed/part_000 references the model;
modelled from the spec: flat record with id, name, description, flag). -/
structure SalesChannel where
  id : String
  name : String
  description : Option String
  is_disabled : Bool
deriving DecidableEq, Repr

/-- Modelled from the spec: `CreateSalesChannelInput`. -/
structure CreateSalesChannelInput where
  name : String
  description : Option String
  is_disabled : Option Bool
deriving DecidableEq, Repr

/-- Modelled from the spec: `UpdateSalesChannelInput`. -/
structure UpdateSalesChannelInput where
  name : Option String
  description : Option String
  is_disabled : Option Bool
deriving DecidableEq, Repr

/-- `QuerySelector<any>`: arbitrary filter criteria, modelled as key/value
pairs (the stub never reads it). -/
abbrev QuerySelector := List (String × String)

/-- The stored table of sales channels. -/
abbrev SCStore := List SalesChannel

namespace SalesChannelService

/-- The error every stubbed sales-channel method throws. -/
def notImplementedError : ServiceError :=
  ServiceError.notImplemented ("Method not implemented.")

/-- `retrieve(id)`: `throw new Error("Method not implemented.")`. -/
def retrieve (s : SCStore) (id : String) : Except ServiceError SalesChannel × SCStore :=
  (Except.error notImplementedError, s)

/-- The declared default config of `listAndCount`:
`{ relations: [], skip: 0, take: 10 }`. -/
def listAndCountDefaultConfig : FindConfig :=
  { skip := some 0, take := some 10, relations := [] }

/-- `listAndCount(selector, config)`: `throw new Error("Method not implemented.")`. -/
def listAndCount (s : SCStore) (selector : QuerySelector) (config : FindConfig) :
    Except ServiceError (List SalesChannel × Nat) × SCStore :=
  (Except.error notImplementedError, s)

/-- `create(data)`: `throw new Error("Method not implemented.")`. -/
def create (s : SCStore) (data : CreateSalesChannelInput) :
    Except ServiceError SalesChannel × SCStore :=
  (Except.error notImplementedError, s)

/-- `update(id, data)`: `throw new Error("Method not implemented.")`. -/
def update (s : SCStore) (id : String) (data : UpdateSalesChannelInput) :
    Except ServiceError SalesChannel × SCStore :=
  (Except.error notImplementedError, s)

/-- `delete(id)`: `throw new Error("Method not implemented.")`. -/
def delete (s : SCStore) (id : String) : Except ServiceError Unit × SCStore :=
  (Except.error notImplementedError, s)

end SalesChannelService

/-- A react-query cache key: a path of string segments. -/
abbrev QueryKey := List String

namespace adminSalesChannelsKeys

/-- Modelled from the spec: the query-key factory of the sales-channel
hooks (src/packages/medusa-react/.../queries.ts, not under src/). -/
def all : QueryKey := ["admin_sales_channels"]

/-- The root of every list-shaped query key. -/
def lists : QueryKey := all ++ ["list"]

/-- `list()` with no query argument. -/
def list : QueryKey := lists

/-- The root of every detail-shaped query key. -/
def details : QueryKey := all ++ ["detail"]

/-- `detail(id)`. -/
def detail (id : String) : QueryKey := details ++ [id]

end adminSalesChannelsKeys

/-- The client-side query cache: each cached key with its staleness flag. -/
abbrev QueryCache := List (QueryKey × Bool)

/-- Whether `root` is an initial segment of `key` (react-query invalidation
matches cached keys under an invalidated root). -/
def keyStartsWith : QueryKey → QueryKey → Bool
  | [], _ => true
  | _ :: _, [] => false
  | p :: ps, k :: ks => p == k && keyStartsWith ps ks

/-- Modelled from the spec: marking related cached query keys stale — every
cached key under one of the given roots gets its staleness flag set. -/
def invalidateQueries (roots : List QueryKey) (cache : QueryCache) : QueryCache :=
  cache.map fun entry => (entry.1, entry.2 || roots.any fun root => keyStartsWith root entry.1)

/-- The observable outcome of one mutation invocation: the HTTP response,
the query cache afterwards, and how many HTTP calls were issued. -/
structure MutationOutcome (R : Type) where
  response : Except ServiceError R
  cache : QueryCache
  httpCalls : Nat

/-- Modelled from the spec: one invocation of a mutation built by
`useMutation` with `buildOptions(queryClient, keys, options)` — it issues
exactly one HTTP call through the client and, only when that call
succeeds, invalidates the given query keys. -/
def runMutation {P R : Type} (client : P → Except ServiceError R) (roots : List QueryKey)
    (cache : QueryCache) (payload : P) : MutationOutcome R :=
  match client payload with
  | Except.ok r =>
    { response := Except.ok r, cache := invalidateQueries roots cache, httpCalls := 1 }
  | Except.error e => { response := Except.error e, cache := cache, httpCalls := 1 }

/-- `useAdminCreateSalesChannel`: posts the payload via
`client.admin.salesChannels.create` and invalidates `list()` on success. -/
def useAdminCreateSalesChannel (client : CreateSalesChannelInput → Except ServiceError SalesChannel)
    (cache : QueryCache) (payload : CreateSalesChannelInput) : MutationOutcome SalesChannel :=
  runMutation client [adminSalesChannelsKeys.list] cache payload

/-- `useAdminUpdateSalesChannel(id)`: posts the payload via
`client.admin.salesChannels.update` and invalidates `lists()` and
`detail(id)` on success. -/
def useAdminUpdateSalesChannel (id : String)
    (client : UpdateSalesChannelInput → Except ServiceError SalesChannel)
    (cache : QueryCache) (payload : UpdateSalesChannelInput) : MutationOutcome SalesChannel :=
  runMutation client [adminSalesChannelsKeys.lists, adminSalesChannelsKeys.detail id] cache payload

/-- `useAdminDeleteSalesChannel(id)`: calls
`client.admin.salesChannels.delete(id)` (no payload) and invalidates
`lists()` and `detail(id)` on success. -/
def useAdminDeleteSalesChannel (id : String)
    (client : Unit → Except ServiceError String)
    (cache : QueryCache) : MutationOutcome String :=
  runMutation client [adminSalesChannelsKeys.lists, adminSalesChannelsKeys.detail id] cache ()

/-- Whether an operation outcome is an error at all. -/
def raisedError {α σ : Type} : Except ServiceError α × σ → Bool
  | (Except.error _, _) => true
  | (Except.ok _, _) => false

/-- Whether an operation outcome is a `NOT_FOUND` error. -/
def raisedNotFound {α σ : Type} : Except ServiceError α × σ → Bool
  | (Except.error (ServiceError.notFound _), _) => true
  | _ => false

/-- Sample stored custom shipping option, used by witnesses. -/
def sampleOption : CustomShippingOption :=
  { id := "cso_1", cart_id := "cart_1", shipping_option_id := "so_1"
    price := 100, metadata := [] }

/-- Sample create input, used by witnesses. -/
def sampleInput : CreateCustomShippingOptionInput :=
  { cart_id := "cart_2", shipping_option_id := "so_2", price := 250
    metadata := some [("origin", "admin")] }

/-- Sample create config carrying metadata, used by witnesses. -/
def sampleCreateConfig : CustomShippingOptionService.CreateConfig :=
  { metadata := [("source", "draft-order")] }

/-- Sample find config with every option absent, used by witnesses. -/
def sampleFindConfig : FindConfig := { skip := none, take := none, relations := [] }

/-- Sample fresh id assigned by the store, used by witnesses. -/
def freshId : String := "cso_9"

/-- Sample sales channel id, used by witnesses. -/
def sampleChannelId : String := "sc_1"

/-- Sample sales-channel create input, used by witnesses. -/
def sampleCreateChannel : CreateSalesChannelInput :=
  { name := "Web", description := none, is_disabled := none }

/-- Sample sales-channel update input, used by witnesses. -/
def sampleUpdateChannel : UpdateSalesChannelInput :=
  { name := some "Storefront", description := none, is_disabled := none }

/-- Sample sales channel returned by a succeeding client, used by witnesses. -/
def sampleChannel : SalesChannel :=
  { id := "sc_1", name := "Web", description := none, is_disabled := false }

/-- Sample client-side query cache, used by witnesses. -/
def sampleCache : QueryCache :=
  [(adminSalesChannelsKeys.list, false),
   (adminSalesChannelsKeys.detail sampleChannelId, false),
   (["admin_orders"], false)]

/-- The `NOT_FOUND` message `retrieve` builds for a given id. -/
def notFoundMessage (id : String) : String :=
  "Custom shipping option with id: " ++ id ++ " was not found."

theorem matches_idOnly (v : String) (r : CustomShippingOption) :
    Selector.matches { Selector.empty with id := some v } r = (r.id == v) := by
  simp [Selector.matches, Selector.empty]

theorem findOne_idOnly (s : Store) (id : String) (config : FindConfig) :
    Repo.findOne s (buildQuery { Selector.empty with id := some id } config) =
      (s.filter fun r => r.id == id).head? := by
  simp [Repo.findOne, buildQuery, matches_idOnly]

theorem retrieve_eq (s : Store) (id : String) (config : FindConfig) :
    CustomShippingOptionService.retrieve s id config =
      match (s.filter fun r => r.id == id).head? with
      | some r => (Except.ok r, s)
      | none => (Except.error (ServiceError.notFound (notFoundMessage id)), s) := by
  show atomicPhase_ s (CustomShippingOptionService.retrieveWork id config) = _
  rw [atomicPhase_, CustomShippingOptionService.retrieveWork]
  rw [findOne_idOnly]
  cases h : (s.filter fun r => r.id == id).head? <;> simp [notFoundMessage]

theorem filter_head_unique {α : Type} (p : α → Bool) (l : List α) (r : α)
    (hr : r ∈ l) (hpr : p r = true)
    (huniq : ∀ a ∈ l, ∀ b ∈ l, p a = true → p b = true → a = b) :
    (l.filter p).head? = some r := by
  induction l with
  | nil => cases hr
  | cons x t ih =>
    by_cases hx : p x = true
    · have hxr : x = r := huniq x (List.mem_cons_self x t) r hr hx hpr
      simp [List.filter_cons, hx, hxr, hpr]
    · have hrx : r ≠ x := fun h => hx (h ▸ hpr)
      have hrt : r ∈ t := by
        rcases List.mem_cons.mp hr with h | h
        · exact absurd h hrx
        · exact h
      have hsub : ∀ a ∈ t, ∀ b ∈ t, p a = true → p b = true → a = b := fun a ha b hb =>
        huniq a (List.mem_cons_of_mem x ha) b (List.mem_cons_of_mem x hb)
      simpa [List.filter_cons, hx] using ih hrt hsub

theorem takeOpt_subset (n : Option Nat) (l : List CustomShippingOption) : takeOpt n l ⊆ l := by
  cases n with
  | some k => exact List.take_subset k l
  | none => exact fun a ha => ha

end Medusa

open Medusa

/-- C1: `CustomShippingOptionService.retrieve(id, config)` fails with a
NotFound error when no stored record has that id, and otherwise (ids being
unique in the store) returns the one matching record. -/
theorem retrieve_notFound_or_returns_match (s : Store) (id : String) (config : FindConfig)
    (hnodup : (s.map CustomShippingOption.id).Nodup) :
    ((∀ r ∈ s, r.id ≠ id) →
      CustomShippingOptionService.retrieve s id config =
        (Except.error (ServiceError.notFound (notFoundMessage id)), s)) ∧
    (∀ r ∈ s, r.id = id →
      CustomShippingOptionService.retrieve s id config = (Except.ok r, s)) := by
  constructor
  · intro hnone
    have hfil : (s.filter fun r => r.id == id) = [] :=
      List.filter_eq_nil_iff.mpr fun a ha => by
        simpa using hnone a ha
    rw [retrieve_eq, hfil]
    rfl
  · intro r hr hid
    have huniq : ∀ a ∈ s, ∀ b ∈ s, (a.id == id) = true → (b.id == id) = true → a = b := by
      intro a ha b hb hpa hpb
      exact List.inj_on_of_nodup_map hnodup ha hb (by
        have h1 : a.id = id := by simpa using hpa
        have h2 : b.id = id := by simpa using hpb
        rw [h1, h2])
    have hhead : (s.filter fun r => r.id == id).head? = some r :=
      filter_head_unique (fun r => r.id == id) s r hr (by simpa using hid) huniq
    rw [retrieve_eq, hhead]

/-- C1 witness: on a one-record store, retrieving the stored id returns the
record. -/
theorem retrieve_notFound_or_returns_match_witness :
    CustomShippingOptionService.retrieve [sampleOption] sampleOption.id sampleFindConfig =
      (Except.ok sampleOption, [sampleOption]) :=
  (retrieve_notFound_or_returns_match [sampleOption] sampleOption.id sampleFindConfig
    (by decide)).2 sampleOption (by simp) rfl

/-- C2: after `create(data, config)` succeeds, `retrieve` of the created
record's id (fresh in the store) returns a record whose cart_id,
shipping_option_id, price and metadata are identical to those persisted. -/
theorem create_then_retrieve (s : Store) (newId : String)
    (data : CreateCustomShippingOptionInput) (config : CustomShippingOptionService.CreateConfig)
    (rconfig : FindConfig) (hfresh : ∀ r ∈ s, r.id ≠ newId) :
    ∃ saved,
      CustomShippingOptionService.create newId s data config = (Except.ok saved, s ++ [saved]) ∧
      CustomShippingOptionService.retrieve (s ++ [saved]) newId rconfig =
        (Except.ok saved, s ++ [saved]) ∧
      saved.cart_id = data.cart_id ∧ saved.shipping_option_id = data.shipping_option_id ∧
      saved.price = data.price ∧ saved.metadata = config.metadata := by
  refine ⟨{ id := newId, cart_id := data.cart_id, shipping_option_id := data.shipping_option_id
            price := data.price, metadata := config.metadata }, rfl, ?_, rfl, rfl, rfl, rfl⟩
  rw [retrieve_eq, List.filter_append]
  have h1 : (s.filter fun r => r.id == newId) = [] :=
    List.filter_eq_nil_iff.mpr fun a ha => by simpa using hfresh a ha
  rw [h1]
  simp

/-- C2 witness: creating in the empty store and retrieving the fresh id. -/
theorem create_then_retrieve_witness :
    ∃ saved,
      CustomShippingOptionService.create freshId [] sampleInput sampleCreateConfig =
        (Except.ok saved, [] ++ [saved]) ∧
      CustomShippingOptionService.retrieve ([] ++ [saved]) freshId sampleFindConfig =
        (Except.ok saved, [] ++ [saved]) ∧
      saved.cart_id = sampleInput.cart_id ∧
      saved.shipping_option_id = sampleInput.shipping_option_id ∧
      saved.price = sampleInput.price ∧ saved.metadata = sampleCreateConfig.metadata :=
  create_then_retrieve [] freshId sampleInput sampleCreateConfig sampleFindConfig (by decide)

/-- C3: `list(selector, config)` returns exactly the stored records matching
the selector, paginated by the config's skip and take, and the
omitted-config default is skip=0 and take=50. -/
theorem list_filters_and_paginates (s : Store) (sel : Selector) (config : FindConfig) :
    CustomShippingOptionService.list s sel config =
      (Except.ok (takeOpt config.take
        ((s.filter fun r => Selector.matches sel r).drop (config.skip.getD 0))), s) ∧
    (∀ r ∈ takeOpt config.take
        ((s.filter fun r => Selector.matches sel r).drop (config.skip.getD 0)),
      r ∈ s ∧ Selector.matches sel r = true) ∧
    CustomShippingOptionService.listDefault s sel =
      (Except.ok ((s.filter fun r => Selector.matches sel r).take 50), s) := by
  refine ⟨rfl, ?_, rfl⟩
  intro r hrmem
  have hrf : r ∈ s.filter fun x => Selector.matches sel x :=
    List.drop_subset _ _ (takeOpt_subset _ _ hrmem)
  exact List.mem_filter.mp hrf

/-- C3 witness: on a one-record store with the empty selector and absent
pagination options, list returns the record, which matches the selector. -/
theorem list_filters_and_paginates_witness :
    CustomShippingOptionService.list [sampleOption] Selector.empty sampleFindConfig =
      (Except.ok (takeOpt sampleFindConfig.take
        (([sampleOption].filter fun r => Selector.matches Selector.empty r).drop
          (sampleFindConfig.skip.getD 0))), [sampleOption]) ∧
    (sampleOption ∈ [sampleOption] ∧ Selector.matches Selector.empty sampleOption = true) :=
  ⟨(list_filters_and_paginates [sampleOption] Selector.empty sampleFindConfig).1,
   (list_filters_and_paginates [sampleOption] Selector.empty sampleFindConfig).2.1
     sampleOption (by decide)⟩

/-- C4: `create(data, config)` persists a new record merging the provided
fields of data with the config's optional metadata, and returns exactly
that persisted record. -/
theorem create_persists_merged_record (newId : String) (s : Store)
    (data : CreateCustomShippingOptionInput) (config : CustomShippingOptionService.CreateConfig) :
    CustomShippingOptionService.create newId s data config =
      (Except.ok
        { id := newId, cart_id := data.cart_id, shipping_option_id := data.shipping_option_id
          price := data.price, metadata := config.metadata },
       s ++ [{ id := newId, cart_id := data.cart_id, shipping_option_id := data.shipping_option_id
               price := data.price, metadata := config.metadata }]) := rfl

/-- C9: create persists only cart_id, shipping_option_id and price taken
from data plus metadata taken from config; the metadata field inside data
is dropped and never reaches the stored record. -/
theorem create_ignores_data_metadata (newId : String) (s : Store)
    (data : CreateCustomShippingOptionInput) (m : Option Metadata)
    (config : CustomShippingOptionService.CreateConfig) :
    CustomShippingOptionService.create newId s { data with metadata := m } config =
      CustomShippingOptionService.create newId s data config ∧
    (CustomShippingOptionService.create newId s data config).1 =
      Except.ok
        { id := newId, cart_id := data.cart_id, shipping_option_id := data.shipping_option_id
          price := data.price, metadata := config.metadata } := ⟨rfl, rfl⟩

/-- Client that answers every create call with a sales channel (witnesses). -/
def okCreateClient : CreateSalesChannelInput → Except ServiceError SalesChannel :=
  fun _ => Except.ok sampleChannel

/-- Client that answers every update call with a sales channel (witnesses). -/
def okUpdateClient : UpdateSalesChannelInput → Except ServiceError SalesChannel :=
  fun _ => Except.ok sampleChannel

/-- Client whose delete call fails at the storage layer (witnesses). -/
def failDeleteClient : Unit → Except ServiceError String :=
  fun _ => Except.error (ServiceError.storage ("connection refused"))

/-- C5 counterexample: `SalesChannelService.update` on any concrete input
raises an error from the application logic itself (a throw in the service
body) that is not a NotFound error. -/
theorem salesChannel_raises_non_notFound :
    raisedError (SalesChannelService.update [] sampleChannelId sampleUpdateChannel) = true ∧
    raisedNotFound (SalesChannelService.update [] sampleChannelId sampleUpdateChannel) = false ∧
    (SalesChannelService.update [] sampleChannelId sampleUpdateChannel).1 =
      Except.error (ServiceError.notImplemented ("Method not implemented.")) :=
  ⟨rfl, rfl, rfl⟩

/-- C5 (amended): within `CustomShippingOptionService` the only error the
application logic raises is NotFound, raised exactly when retrieve's lookup
yields no row (list and create never raise), and a failure thrown inside
the transaction wrapper propagates unmodified to the caller; the
sales-channel stubs additionally throw plain not-implemented errors. -/
theorem customShipping_only_notFound (s : Store) (id : String) (config : FindConfig)
    (sel : Selector) (lconfig : FindConfig) (newId : String)
    (data : CreateCustomShippingOptionInput)
    (cconfig : CustomShippingOptionService.CreateConfig) :
    (raisedError (CustomShippingOptionService.retrieve s id config) = true ↔
      ∀ r ∈ s, r.id ≠ id) ∧
    raisedNotFound (CustomShippingOptionService.retrieve s id config) =
      raisedError (CustomShippingOptionService.retrieve s id config) ∧
    raisedError (CustomShippingOptionService.list s sel lconfig) = false ∧
    raisedError (CustomShippingOptionService.create newId s data cconfig) = false ∧
    (∀ (α : Type) (work : Store → Except ServiceError (α × Store)) (e : ServiceError),
      work s = Except.error e → atomicPhase_ s work = (Except.error e, s)) := by
  have hnf : raisedNotFound (CustomShippingOptionService.retrieve s id config) =
      raisedError (CustomShippingOptionService.retrieve s id config) := by
    rw [retrieve_eq]
    cases (s.filter fun r => r.id == id).head? <;> rfl
  have hiff : raisedError (CustomShippingOptionService.retrieve s id config) = true ↔
      ∀ r ∈ s, r.id ≠ id := by
    rw [retrieve_eq]
    cases hfe : (s.filter fun r => r.id == id) with
    | nil =>
      apply iff_of_true rfl
      intro r hr
      have := List.filter_eq_nil_iff.mp hfe r hr
      simpa using this
    | cons v tail =>
      have hv : v ∈ s.filter fun r => r.id == id := by
        rw [hfe]; exact List.mem_cons_self v tail
      have hvs := List.mem_filter.mp hv
      have hvid : v.id = id := by simpa using hvs.2
      apply iff_of_false
      · exact fun hf => Bool.noConfusion hf
      · intro hall; exact hall v hvs.1 hvid
  have hprop : ∀ (α : Type) (work : Store → Except ServiceError (α × Store)) (e : ServiceError),
      work s = Except.error e → atomicPhase_ s work = (Except.error e, s) := by
    intro α work e hw
    unfold atomicPhase_
    rw [hw]
  exact ⟨hiff, hnf, rfl, rfl, hprop⟩

/-- C5 witness: on the empty store retrieve raises (NotFound), and a
storage failure inside the wrapper reaches the caller unmodified with the
store untouched. -/
theorem customShipping_only_notFound_witness :
    raisedError (CustomShippingOptionService.retrieve [] freshId sampleFindConfig) = true ∧
    atomicPhase_ [] (fun _ => Except.error (ServiceError.storage ("connection refused"))) =
      ((Except.error (ServiceError.storage ("connection refused")) : Except ServiceError Nat),
        ([] : Store)) :=
  ⟨(customShipping_only_notFound [] freshId sampleFindConfig Selector.empty sampleFindConfig
      freshId sampleInput sampleCreateConfig).1.mpr (by decide),
   (customShipping_only_notFound [] freshId sampleFindConfig Selector.empty sampleFindConfig
      freshId sampleInput sampleCreateConfig).2.2.2.2 Nat
      (fun _ => Except.error (ServiceError.storage ("connection refused")))
      (ServiceError.storage ("connection refused")) rfl⟩

/-- C6: `SalesChannelService.update(id, data)` and `delete(id)` always fail
by throwing, for every store and input. -/
theorem salesChannel_update_delete_always_throw (s : SCStore) (id : String)
    (data : UpdateSalesChannelInput) :
    SalesChannelService.update s id data =
      (Except.error SalesChannelService.notImplementedError, s) ∧
    SalesChannelService.delete s id =
      (Except.error SalesChannelService.notImplementedError, s) :=
  ⟨rfl, rfl⟩

/-- C7: each service operation runs as one unit of work through the
transaction wrapper: a unit that throws leaves the stored state unchanged
(rolled back) and its error propagates; a unit that succeeds commits its
resulting state; and retrieve, list and create are each exactly one such
wrapped unit. -/
theorem atomicPhase_rollback_or_commit {α : Type} (s : Store)
    (work : Store → Except ServiceError (α × Store)) (id newId : String)
    (config : FindConfig) (sel : Selector)
    (data : CreateCustomShippingOptionInput)
    (cconfig : CustomShippingOptionService.CreateConfig) :
    (∀ e, work s = Except.error e → atomicPhase_ s work = (Except.error e, s)) ∧
    (∀ a t, work s = Except.ok (a, t) → atomicPhase_ s work = (Except.ok a, t)) ∧
    CustomShippingOptionService.retrieve s id config =
      atomicPhase_ s (CustomShippingOptionService.retrieveWork id config) ∧
    CustomShippingOptionService.list s sel config =
      atomicPhase_ s (CustomShippingOptionService.listWork sel config) ∧
    CustomShippingOptionService.create newId s data cconfig =
      atomicPhase_ s (CustomShippingOptionService.createWork newId data cconfig) := by
  refine ⟨?_, ?_, rfl, rfl, rfl⟩
  · intro e hw
    unfold atomicPhase_
    rw [hw]
  · intro a t hw
    unfold atomicPhase_
    rw [hw]

/-- C7 witness: a failing write inside the wrapper leaves the one-record
store unchanged; a succeeding unit commits its resulting state. -/
theorem atomicPhase_rollback_or_commit_witness :
    atomicPhase_ [sampleOption]
        (fun _ => Except.error (ServiceError.storage ("constraint violation"))) =
      ((Except.error (ServiceError.storage ("constraint violation")) : Except ServiceError Nat),
        [sampleOption]) ∧
    atomicPhase_ [sampleOption] (fun st => Except.ok (0, st)) =
      ((Except.ok 0 : Except ServiceError Nat), [sampleOption]) :=
  ⟨(atomicPhase_rollback_or_commit [sampleOption]
      (fun _ => Except.error (ServiceError.storage ("constraint violation")))
      freshId freshId sampleFindConfig Selector.empty sampleInput sampleCreateConfig).1
      (ServiceError.storage ("constraint violation")) rfl,
   (atomicPhase_rollback_or_commit [sampleOption] (fun st => Except.ok (0, st))
      freshId freshId sampleFindConfig Selector.empty sampleInput sampleCreateConfig).2.1
      0 [sampleOption] rfl⟩

/-- C8: each sales-channel mutation hook issues exactly one HTTP call per
mutation invocation and, on success only, marks its related cached query
keys as stale; a failed call leaves the cache untouched. -/
theorem hooks_single_call_invalidate_on_success
    (clientC : CreateSalesChannelInput → Except ServiceError SalesChannel)
    (clientU : UpdateSalesChannelInput → Except ServiceError SalesChannel)
    (clientD : Unit → Except ServiceError String)
    (id : String) (cache : QueryCache)
    (p : CreateSalesChannelInput) (q : UpdateSalesChannelInput) :
    (useAdminCreateSalesChannel clientC cache p).httpCalls = 1 ∧
    (useAdminUpdateSalesChannel id clientU cache q).httpCalls = 1 ∧
    (useAdminDeleteSalesChannel id clientD cache).httpCalls = 1 ∧
    (∀ r, clientC p = Except.ok r →
      (useAdminCreateSalesChannel clientC cache p).cache =
        invalidateQueries [adminSalesChannelsKeys.list] cache) ∧
    (∀ e, clientC p = Except.error e →
      (useAdminCreateSalesChannel clientC cache p).cache = cache) ∧
    (∀ r, clientU q = Except.ok r →
      (useAdminUpdateSalesChannel id clientU cache q).cache =
        invalidateQueries [adminSalesChannelsKeys.lists, adminSalesChannelsKeys.detail id] cache) ∧
    (∀ e, clientU q = Except.error e →
      (useAdminUpdateSalesChannel id clientU cache q).cache = cache) ∧
    (∀ r, clientD () = Except.ok r →
      (useAdminDeleteSalesChannel id clientD cache).cache =
        invalidateQueries [adminSalesChannelsKeys.lists, adminSalesChannelsKeys.detail id] cache) ∧
    (∀ e, clientD () = Except.error e →
      (useAdminDeleteSalesChannel id clientD cache).cache = cache) := by
  refine ⟨?_, ?_, ?_, ?_, ?_, ?_, ?_, ?_, ?_⟩
  · unfold useAdminCreateSalesChannel runMutation
    cases clientC p <;> rfl
  · unfold useAdminUpdateSalesChannel runMutation
    cases clientU q <;> rfl
  · unfold useAdminDeleteSalesChannel runMutation
    cases clientD () <;> rfl
  · intro r hr
    unfold useAdminCreateSalesChannel runMutation
    rw [hr]
  · intro e he
    unfold useAdminCreateSalesChannel runMutation
    rw [he]
  · intro r hr
    unfold useAdminUpdateSalesChannel runMutation
    rw [hr]
  · intro e he
    unfold useAdminUpdateSalesChannel runMutation
    rw [he]
  · intro r hr
    unfold useAdminDeleteSalesChannel runMutation
    rw [hr]
  · intro e he
    unfold useAdminDeleteSalesChannel runMutation
    rw [he]

/-- C8 witness: a succeeding create invalidates its list key and a failing
delete leaves the sample cache untouched; each issued one call. -/
theorem hooks_single_call_invalidate_on_success_witness :
    (useAdminCreateSalesChannel okCreateClient sampleCache sampleCreateChannel).httpCalls = 1 ∧
    (useAdminCreateSalesChannel okCreateClient sampleCache sampleCreateChannel).cache =
      invalidateQueries [adminSalesChannelsKeys.list] sampleCache ∧
    (useAdminDeleteSalesChannel sampleChannelId failDeleteClient sampleCache).cache =
      sampleCache :=
  ⟨(hooks_single_call_invalidate_on_success okCreateClient okUpdateClient failDeleteClient
      sampleChannelId sampleCache sampleCreateChannel sampleUpdateChannel).1,
   (hooks_single_call_invalidate_on_success okCreateClient okUpdateClient failDeleteClient
      sampleChannelId sampleCache sampleCreateChannel sampleUpdateChannel).2.2.2.1
      sampleChannel rfl,
   (hooks_single_call_invalidate_on_success okCreateClient okUpdateClient failDeleteClient
      sampleChannelId sampleCache sampleCreateChannel sampleUpdateChannel).2.2.2.2.2.2.2.2
      (ServiceError.storage ("connection refused")) rfl⟩

/-- C10: every public operation of `SalesChannelService` — retrieve,
listAndCount, create, update and delete — unconditionally throws for every
input (even though its declared default config says take=10), so none of
the per-operation contracts is met by this service. -/
theorem salesChannel_all_operations_throw (s : SCStore) (id : String)
    (sel : QuerySelector) (config : FindConfig)
    (data : CreateSalesChannelInput) (udata : UpdateSalesChannelInput) :
    SalesChannelService.retrieve s id =
      (Except.error SalesChannelService.notImplementedError, s) ∧
    SalesChannelService.listAndCount s sel config =
      (Except.error SalesChannelService.notImplementedError, s) ∧
    SalesChannelService.create s data =
      (Except.error SalesChannelService.notImplementedError, s) ∧
    SalesChannelService.update s id udata =
      (Except.error SalesChannelService.notImplementedError, s) ∧
    SalesChannelService.delete s id =
      (Except.error SalesChannelService.notImplementedError, s) ∧
    SalesChannelService.listAndCountDefaultConfig.take = some 10 :=
  ⟨rfl, rfl, rfl, rfl, rfl, rfl⟩
